import Mathlib

/-!
Shallow embedding of `src/tlsutils/common_key.go` from
`paragor/terraform-provider-tlsutils`: PEM private-key decoding and
algorithm classification (`parsePrivateKeyPEM`, `keyParsers`,
`privateKeyToAlgorithm`), together with theorems checking the
specification's claims about them.

The Go standard-library decoders (`encoding/pem.Decode` and the three
`crypto/x509` DER parsers) are external dependencies the spec leaves
unspecified; they are abstracted as a parameter record `CryptoStdlib`.
The repository's `PEMPreamble` enumeration, `pemBlockToPEMPreamble`
classifier and `Algorithm` constants are declared outside the provided
source file; they are modelled from the spec (each such definition says
so in its doc comment).
-/

namespace Tlsutils

/-- A Go byte slice (`[]byte`), each byte a `Nat`. -/
abbrev Bytes := List Nat

/-- The diagnostic carried by an error value returned from a Go
standard-library x509 decoder, abstracted as its message text. -/
abbrev X509Error := String

/-- RSA private-key material (`crypto/rsa.PrivateKey`): modulus and
public/private exponents. The fields are never inspected by the embedded
code; they only make distinct keys distinguishable. -/
structure RsaPrivateKey where
  n : Nat
  e : Nat
  d : Nat
deriving DecidableEq

/-- ECDSA private-key material (`crypto/ecdsa.PrivateKey`): curve name and
scalar. Fields are never inspected by the embedded code. -/
structure EcdsaPrivateKey where
  curve : String
  d : Nat
deriving DecidableEq

/-- Ed25519 private-key material (`crypto/ed25519.PrivateKey` is a byte
slice in Go). -/
abbrev Ed25519PrivateKey := Bytes

/-- A Go `crypto.PrivateKey`: a dynamically typed (`any`) value. The Go
type switch in `privateKeyToAlgorithm` distinguishes value and pointer
forms of each of the three supported key types, and has a default case for
every other dynamic type; `other typeName` stands for any such value
(including a nil interface), identified by its `%T` diagnostic name. -/
inductive GoPrivateKey where
  | rsaVal (k : RsaPrivateKey)
  | rsaPtr (k : RsaPrivateKey)
  | ecdsaVal (k : EcdsaPrivateKey)
  | ecdsaPtr (k : EcdsaPrivateKey)
  | ed25519Val (k : Ed25519PrivateKey)
  | ed25519Ptr (k : Ed25519PrivateKey)
  | other (typeName : String)
deriving DecidableEq

/-- The Go `%T` diagnostic type name of a `crypto.PrivateKey` value. -/
def GoPrivateKey.typeName : GoPrivateKey → String
  | .rsaVal _ => "rsa.PrivateKey"
  | .rsaPtr _ => "*rsa.PrivateKey"
  | .ecdsaVal _ => "ecdsa.PrivateKey"
  | .ecdsaPtr _ => "*ecdsa.PrivateKey"
  | .ed25519Val _ => "ed25519.PrivateKey"
  | .ed25519Ptr _ => "*ed25519.PrivateKey"
  | .other t => t

/-- The value holds RSA key material (value or pointer form). -/
def GoPrivateKey.isRSA : GoPrivateKey → Bool
  | .rsaVal _ | .rsaPtr _ => true
  | _ => false

/-- The value holds ECDSA key material (value or pointer form). -/
def GoPrivateKey.isECDSA : GoPrivateKey → Bool
  | .ecdsaVal _ | .ecdsaPtr _ => true
  | _ => false

/-- The value holds Ed25519 key material (value or pointer form). -/
def GoPrivateKey.isEd25519 : GoPrivateKey → Bool
  | .ed25519Val _ | .ed25519Ptr _ => true
  | _ => false

/-- A decoded PEM envelope (`encoding/pem.Block`): textual label,
headers, and the base64-decoded binary payload. -/
structure PEMBlock where
  type_ : String
  headers : List (String × String)
  bytes : Bytes
deriving DecidableEq

/-- Modelled from the spec: the repository's `PEMPreamble` enumeration is
declared outside the provided source file; per §3 it is "an enumerated
value drawn from the closed set {RSA-private-key, EC-private-key,
PKCS8-generic-private-key}". Constructor names follow the constants the
source file refers to. -/
inductive PEMPreamble where
  | PreamblePrivateKeyRSA
  | PreamblePrivateKeyEC
  | PreamblePrivateKeyPKCS8
deriving DecidableEq

/-- The PEM label text associated with each preamble (spec §6). -/
def PEMPreamble.label : PEMPreamble → String
  | .PreamblePrivateKeyRSA => "RSA PRIVATE KEY"
  | .PreamblePrivateKeyEC => "EC PRIVATE KEY"
  | .PreamblePrivateKeyPKCS8 => "PRIVATE KEY"

/-- The `Algorithm` type: the source returns `""` for it on every error
path, so it is a string type; its three constants are modelled from the
spec below. -/
abbrev Algorithm := String

/-- Modelled from the spec: the `Algorithm` constant for RSA, declared
outside the provided source file (spec §3: enumerated set {RSA, ECDSA,
ED25519}). -/
def RSA : Algorithm := "RSA"

/-- Modelled from the spec: the `Algorithm` constant for ECDSA, declared
outside the provided source file. -/
def ECDSA : Algorithm := "ECDSA"

/-- Modelled from the spec: the `Algorithm` constant for Ed25519, declared
outside the provided source file. -/
def ED25519 : Algorithm := "ED25519"

/-- The structured errors `parsePrivateKeyPEM` can return. The Go source
builds them with `fmt.Errorf`; each constructor records the format's
dynamic data, and `keyDecodeFailed` / `algorithmFailed` keep the wrapped
(`%w`) underlying error instead of flattening it to text. -/
inductive KeyError where
  /-- "failed to decode PEM block: decoded bytes %d, undecoded %d" -/
  | malformedPEM (decoded undecoded : Int)
  /-- `pemBlockToPEMPreamble` rejected the envelope label (modelled from
  the spec: `UnrecognizedPreamble`, carrying the offending label). -/
  | unrecognizedPreamble (label : String)
  /-- "unable to determine parser for PEM preamble: %s" -/
  | noParser (preamble : PEMPreamble)
  /-- "failed to parse private key given PEM preamble '%s': %w" -/
  | keyDecodeFailed (preamble : PEMPreamble) (underlying : X509Error)
  /-- "unsupported private key type: %T" -/
  | unsupportedKeyType (typeName : String)
  /-- "failed to determine key algorithm for private key of type %T: %w" -/
  | algorithmFailed (typeName : String) (underlying : KeyError)
deriving DecidableEq

/-- Modelled from the spec: `pemBlockToPEMPreamble`, the Preamble
Classifier (§4.1), is declared outside the provided source file. It is an
exact, case-sensitive, total-on-known-values lookup from the envelope
label to a `PEMPreamble`, failing with `UnrecognizedPreamble` (carrying
the offending label) on any other label; no normalization, no partial or
fuzzy matching. -/
def pemBlockToPEMPreamble (block : PEMBlock) : Except KeyError PEMPreamble :=
  if block.type_ = "RSA PRIVATE KEY" then .ok .PreamblePrivateKeyRSA
  else if block.type_ = "EC PRIVATE KEY" then .ok .PreamblePrivateKeyEC
  else if block.type_ = "PRIVATE KEY" then .ok .PreamblePrivateKeyPKCS8
  else .error (.unrecognizedPreamble block.type_)

/-- `keyParser`: parses a private key from the given bytes (Go
`func([]byte) (crypto.PrivateKey, error)`). -/
abbrev keyParser := Bytes → Except X509Error GoPrivateKey

/-- The external Go standard-library crypto functions the source file
calls. `pemDecode` is `encoding/pem.Decode`: it returns the first PEM
block found together with the rest of the input, or no block and the
whole input when none is found. The three x509 fields are
`x509.ParsePKCS1PrivateKey`, `x509.ParseECPrivateKey` and
`x509.ParsePKCS8PrivateKey`. All are abstract: theorems hold for every
implementation, with hypotheses recording the stdlib behavior a claim
relies on. -/
structure CryptoStdlib where
  pemDecode : Bytes → Option PEMBlock × Bytes
  parsePKCS1PrivateKey : keyParser
  parseECPrivateKey : keyParser
  parsePKCS8PrivateKey : keyParser

/-- `keyParsers`: the registry mapping each `PEMPreamble` to its
`keyParser`, a Go map literal with exactly the three entries; lookup
returns `none` exactly when the map misses (the Go `ok` flag). -/
def keyParsers (lib : CryptoStdlib) : PEMPreamble → Option keyParser
  | .PreamblePrivateKeyRSA => some fun der => lib.parsePKCS1PrivateKey der
  | .PreamblePrivateKeyEC => some fun der => lib.parseECPrivateKey der
  | .PreamblePrivateKeyPKCS8 => some fun der => lib.parsePKCS8PrivateKey der

/-- `privateKeyToAlgorithm`: identifies the `Algorithm` used by a given
`crypto.PrivateKey` via a type switch over value and pointer forms of the
three supported key types. -/
def privateKeyToAlgorithm (prvKey : GoPrivateKey) : Except KeyError Algorithm :=
  match prvKey with
  | .rsaVal _ | .rsaPtr _ => .ok RSA
  | .ecdsaVal _ | .ecdsaPtr _ => .ok ECDSA
  | .ed25519Val _ | .ed25519Ptr _ => .ok ED25519
  | .other _ => .error (.unsupportedKeyType prvKey.typeName)

/-- `parsePrivateKeyPEM`: decodes one PEM-encoded private key and returns
the Go triple `(crypto.PrivateKey, Algorithm, error)` — key and error
modelled as `Option` (Go nil-ability), the `Algorithm` the empty string on
every error path, exactly as in the source. -/
def parsePrivateKeyPEM (lib : CryptoStdlib) (keyPEMBytes : Bytes) :
    Option GoPrivateKey × Algorithm × Option KeyError :=
  match lib.pemDecode keyPEMBytes with
  | (none, rest) =>
    (none, "",
      some (.malformedPEM ((keyPEMBytes.length : Int) - (rest.length : Int))
        (rest.length : Int)))
  | (some pemBlock, _rest) =>
    match pemBlockToPEMPreamble pemBlock with
    | .error err => (none, "", some err)
    | .ok preamble =>
      match keyParsers lib preamble with
      | none => (none, "", some (.noParser preamble))
      | some parser =>
        match parser pemBlock.bytes with
        | .error err => (none, "", some (.keyDecodeFailed preamble err))
        | .ok prvKey =>
          match privateKeyToAlgorithm prvKey with
          | .error err => (none, "", some (.algorithmFailed prvKey.typeName err))
          | .ok algorithm => (some prvKey, algorithm, none)

/-- The error component is the internal "unable to determine parser"
error (used to state that this branch is unreachable). -/
def isNoParserError : Option KeyError → Bool
  | some (.noParser _) => true
  | _ => false

/-- The shape every returned triple must have: on success (no error) the
key is present and the algorithm is one of the three set members; on
failure the key is absent and the algorithm is the empty string; nothing
partially populated. -/
def resultWellFormed : Option GoPrivateKey × Algorithm × Option KeyError → Bool
  | (some _, alg, none) => [RSA, ECDSA, ED25519].contains alg
  | (none, alg, some _) => alg == ""
  | (_, _, _) => false

/-! Concrete instantiation of the abstract standard library, used to
evaluate the theorems on concrete inputs. Inputs are routed by their first
byte to fixed envelopes; the DER parsers accept exactly the payloads the
scenarios use, with the stdlib's documented result shapes. -/

/-- A concrete RSA key used in witnesses. -/
def egRsaKey : RsaPrivateKey := ⟨3233, 17, 2753⟩

/-- A concrete Ed25519 key used in witnesses. -/
def egEdKey : Ed25519PrivateKey := [7, 7, 7]

/-- A concrete standard-library instantiation used in witnesses. -/
def egLib : CryptoStdlib where
  pemDecode := fun bs =>
    match bs with
    | 1 :: rest => (some ⟨"RSA PRIVATE KEY", [], [1]⟩, rest)
    | 2 :: rest => (some ⟨"PRIVATE KEY", [], [2]⟩, rest)
    | 3 :: rest => (some ⟨"CERTIFICATE", [], [3]⟩, rest)
    | 4 :: rest => (some ⟨"RSA PRIVATE KEY", [], [48, 119]⟩, rest)
    | 5 :: rest => (some ⟨"EC PRIVATE KEY", [], [5]⟩, rest)
    | bs => (none, bs)
  parsePKCS1PrivateKey := fun der =>
    if der = [1] then .ok (.rsaPtr egRsaKey)
    else .error "x509: failed to parse private key (use ParsePKCS8PrivateKey instead for this key format)"
  parseECPrivateKey := fun der =>
    if der = [5] then .ok (.other "*ecdh.PrivateKey")
    else .error "x509: failed to parse EC private key"
  parsePKCS8PrivateKey := fun der =>
    if der = [2] then .ok (.ed25519Val egEdKey)
    else .error "x509: malformed PKCS8 private key"

/-! ## Theorems -/

/-- Whenever `parsePrivateKeyPEM` succeeds, the returned algorithm is the
one `privateKeyToAlgorithm` assigns to the returned key (inversion on the
success path). -/
theorem parsePrivateKeyPEM_success_algorithm (lib : CryptoStdlib) (input : Bytes)
    (k : GoPrivateKey) (alg : Algorithm)
    (h : parsePrivateKeyPEM lib input = (some k, alg, none)) :
    privateKeyToAlgorithm k = .ok alg := by
  unfold parsePrivateKeyPEM at h
  split at h
  · simp at h
  · split at h
    · simp at h
    · split at h
      · simp at h
      · split at h
        · simp at h
        · split at h
          · simp at h
          · next prvKey algorithm heq =>
            simp only [Prod.mk.injEq, Option.some.injEq, and_true] at h
            obtain ⟨rfl, rfl⟩ := h
            exact heq

/-- C1: for every input on which `parsePrivateKeyPEM` succeeds, the
returned (key, algorithm) pair is mutually consistent: the algorithm is
`RSA` exactly when the key holds RSA material (value or pointer), `ECDSA`
exactly for ECDSA material, `ED25519` exactly for Ed25519 material. -/
theorem parsePrivateKeyPEM_pair_consistent (lib : CryptoStdlib) (input : Bytes)
    (k : GoPrivateKey) (alg : Algorithm)
    (h : parsePrivateKeyPEM lib input = (some k, alg, none)) :
    (alg = RSA ↔ k.isRSA = true) ∧ (alg = ECDSA ↔ k.isECDSA = true) ∧
      (alg = ED25519 ↔ k.isEd25519 = true) := by
  have hk := parsePrivateKeyPEM_success_algorithm lib input k alg h
  cases k <;> simp only [privateKeyToAlgorithm, Except.ok.injEq] at hk <;>
    first
    | exact absurd hk (by simp)
    | (subst hk;
       simp [GoPrivateKey.isRSA, GoPrivateKey.isECDSA, GoPrivateKey.isEd25519,
         RSA, ECDSA, ED25519])

/-- Witness for C1: a concrete successful decode (an RSA envelope routed
to a parser returning a pointer-form RSA key) satisfies the consistency
conclusion. -/
theorem parsePrivateKeyPEM_pair_consistent_witness :
    (RSA = RSA ↔ (GoPrivateKey.rsaPtr egRsaKey).isRSA = true) ∧
      (RSA = ECDSA ↔ (GoPrivateKey.rsaPtr egRsaKey).isECDSA = true) ∧
      (RSA = ED25519 ↔ (GoPrivateKey.rsaPtr egRsaKey).isEd25519 = true) :=
  parsePrivateKeyPEM_pair_consistent egLib [1] (.rsaPtr egRsaKey) RSA (by decide)

/-- C7: the algorithm classification treats the owned-value and pointer
representations identically: both forms of an RSA key classify as `RSA`,
and both forms of an ECDSA key classify as `ECDSA`. -/
theorem privateKeyToAlgorithm_value_pointer_agree :
    (∀ v : RsaPrivateKey,
      privateKeyToAlgorithm (.rsaVal v) = .ok RSA ∧
        privateKeyToAlgorithm (.rsaPtr v) = .ok RSA) ∧
    ∀ v : EcdsaPrivateKey,
      privateKeyToAlgorithm (.ecdsaVal v) = .ok ECDSA ∧
        privateKeyToAlgorithm (.ecdsaPtr v) = .ok ECDSA :=
  ⟨fun _ => ⟨rfl, rfl⟩, fun _ => ⟨rfl, rfl⟩⟩

/-- C8: the `keyParsers` registry lookup succeeds for every member of the
closed `PEMPreamble` set, and the "unable to determine parser" branch of
`parsePrivateKeyPEM` is unreachable: no call ever returns that error. -/
theorem keyParsers_total_noParser_unreachable :
    (∀ (lib : CryptoStdlib) (p : PEMPreamble), (keyParsers lib p).isSome = true) ∧
    ∀ (lib : CryptoStdlib) (input : Bytes),
      isNoParserError (parsePrivateKeyPEM lib input).2.2 = false := by
  constructor
  · intro lib p
    cases p <;> rfl
  · intro lib input
    unfold parsePrivateKeyPEM
    split
    · rfl
    · split
      · next err heq2 =>
        unfold pemBlockToPEMPreamble at heq2
        repeat' split at heq2
        all_goals simp at heq2
        all_goals (subst heq2; rfl)
      · next preamble heq2 =>
        split
        · next heq3 => cases preamble <;> simp [keyParsers] at heq3
        · split
          · rfl
          · split <;> rfl

/-- C2: for an input whose envelope carries the generic PKCS#8 label
"PRIVATE KEY" and whose payload the PKCS#8 decoder parses to an Ed25519
key, decoding succeeds and returns `ED25519`: the algorithm tag is driven
by the decoded key's shape, not by the envelope label. -/
theorem parsePrivateKeyPEM_pkcs8_ed25519 (lib : CryptoStdlib) (input : Bytes)
    (block : PEMBlock) (rest : Bytes) (k : Ed25519PrivateKey)
    (hd : lib.pemDecode input = (some block, rest))
    (hl : block.type_ = "PRIVATE KEY")
    (hp : lib.parsePKCS8PrivateKey block.bytes = .ok (.ed25519Val k)) :
    parsePrivateKeyPEM lib input = (some (.ed25519Val k), ED25519, none) := by
  have hc : pemBlockToPEMPreamble block = .ok .PreamblePrivateKeyPKCS8 := by
    unfold pemBlockToPEMPreamble
    rw [hl]
    simp
  unfold parsePrivateKeyPEM
  simp only [hd, hc, keyParsers, hp, privateKeyToAlgorithm]

/-- Witness for C2: a concrete "PRIVATE KEY" envelope whose payload the
PKCS#8 decoder parses to an Ed25519 key. -/
theorem parsePrivateKeyPEM_pkcs8_ed25519_witness :
    parsePrivateKeyPEM egLib [2] = (some (.ed25519Val egEdKey), ED25519, none) :=
  parsePrivateKeyPEM_pkcs8_ed25519 egLib [2] ⟨"PRIVATE KEY", [], [2]⟩ [] egEdKey
    (by decide) rfl rfl

/-- C3: whenever the envelope label selects a decode routine and that
routine rejects the payload, `parsePrivateKeyPEM` fails with the
key-decode-failed error carrying both the chosen preamble and the
underlying decoder's diagnostic (wrapped, not swallowed). -/
theorem parsePrivateKeyPEM_keyDecodeFailed_wraps (lib : CryptoStdlib)
    (input : Bytes) (block : PEMBlock) (rest : Bytes) (p : PEMPreamble)
    (parser : keyParser) (e : X509Error)
    (hd : lib.pemDecode input = (some block, rest))
    (hc : pemBlockToPEMPreamble block = .ok p)
    (hk : keyParsers lib p = some parser)
    (hp : parser block.bytes = .error e) :
    parsePrivateKeyPEM lib input = (none, "", some (.keyDecodeFailed p e)) := by
  unfold parsePrivateKeyPEM
  simp only [hd, hc, hk, hp]

/-- Witness for C3: an envelope labeled "RSA PRIVATE KEY" whose payload is
not PKCS#1 (it is PKCS#8 EC key DER), so the RSA-specific decoder rejects
it and the call fails with the wrapped key-decode-failed error rather than
succeeding. -/
theorem parsePrivateKeyPEM_keyDecodeFailed_wraps_witness :
    parsePrivateKeyPEM egLib [4] =
      (none, "",
        some (.keyDecodeFailed .PreamblePrivateKeyRSA
          "x509: failed to parse private key (use ParsePKCS8PrivateKey instead for this key format)")) :=
  parsePrivateKeyPEM_keyDecodeFailed_wraps egLib [4]
    ⟨"RSA PRIVATE KEY", [], [48, 119]⟩ [] .PreamblePrivateKeyRSA
    (fun der => egLib.parsePKCS1PrivateKey der) _ (by decide) rfl rfl rfl

/-- C4: a well-formed envelope whose label is outside the recognized set
fails with the unrecognized-preamble error carrying that exact label. -/
theorem parsePrivateKeyPEM_unrecognizedPreamble (lib : CryptoStdlib)
    (input : Bytes) (block : PEMBlock) (rest : Bytes)
    (hd : lib.pemDecode input = (some block, rest))
    (h1 : block.type_ ≠ "RSA PRIVATE KEY")
    (h2 : block.type_ ≠ "EC PRIVATE KEY")
    (h3 : block.type_ ≠ "PRIVATE KEY") :
    parsePrivateKeyPEM lib input =
      (none, "", some (.unrecognizedPreamble block.type_)) := by
  have hc : pemBlockToPEMPreamble block =
      .error (.unrecognizedPreamble block.type_) := by
    unfold pemBlockToPEMPreamble
    rw [if_neg h1, if_neg h2, if_neg h3]
  unfold parsePrivateKeyPEM
  simp only [hd, hc]

/-- Witness for C4: a well-formed envelope labeled "CERTIFICATE" fails
with the unrecognized-preamble error carrying exactly that label. -/
theorem parsePrivateKeyPEM_unrecognizedPreamble_witness :
    parsePrivateKeyPEM egLib [3] =
      (none, "", some (.unrecognizedPreamble "CERTIFICATE")) :=
  parsePrivateKeyPEM_unrecognizedPreamble egLib [3] ⟨"CERTIFICATE", [], [3]⟩ []
    (by decide) (by decide) (by decide) (by decide)

/-- C5: when the PEM decoder finds no valid envelope in the input,
`parsePrivateKeyPEM` fails with the malformed-PEM error carrying the
consumed (decoded) and unconsumed (undecoded) byte counts, and returns no
key. -/
theorem parsePrivateKeyPEM_malformedPEM (lib : CryptoStdlib) (input rest : Bytes)
    (hd : lib.pemDecode input = (none, rest)) :
    parsePrivateKeyPEM lib input =
      (none, "",
        some (.malformedPEM ((input.length : Int) - (rest.length : Int))
          (rest.length : Int))) := by
  unfold parsePrivateKeyPEM
  simp only [hd]

/-- Witness for C5: a two-byte input with no PEM envelope fails with the
malformed-PEM error carrying counts 0 consumed and 2 unconsumed. -/
theorem parsePrivateKeyPEM_malformedPEM_witness :
    parsePrivateKeyPEM egLib [9, 9] = (none, "", some (.malformedPEM 0 2)) := by
  simpa using parsePrivateKeyPEM_malformedPEM egLib [9, 9] [9, 9] (by decide)

/-- C6: when the PEM decoder returns the same first envelope for an input
with and without trailing bytes, `parsePrivateKeyPEM` produces the same
result on both inputs: the first valid envelope wins and trailing
undecoded bytes never cause an error. -/
theorem parsePrivateKeyPEM_ignores_trailing (lib : CryptoStdlib)
    (env trailing : Bytes) (block : PEMBlock) (r1 r2 : Bytes)
    (h1 : lib.pemDecode env = (some block, r1))
    (h2 : lib.pemDecode (env ++ trailing) = (some block, r2)) :
    parsePrivateKeyPEM lib (env ++ trailing) = parsePrivateKeyPEM lib env := by
  unfold parsePrivateKeyPEM
  rw [h1, h2]

/-- Witness for C6: an RSA envelope followed by a trailing byte decodes to
the same successful result as the envelope alone. -/
theorem parsePrivateKeyPEM_ignores_trailing_witness :
    parsePrivateKeyPEM egLib ([1] ++ [6]) = parsePrivateKeyPEM egLib [1] :=
  parsePrivateKeyPEM_ignores_trailing egLib [1] [6]
    ⟨"RSA PRIVATE KEY", [], [1]⟩ [] [6] (by decide) (by decide)

/-- C9: when the selected decode routine returns a key whose runtime shape
matches none of the three supported variants, algorithm classification
fails and `parsePrivateKeyPEM` returns the error wrapping the
unsupported-key-type diagnostic that carries the concrete shape's type
name; no key and no default algorithm are returned. -/
theorem parsePrivateKeyPEM_unsupportedKeyType (lib : CryptoStdlib)
    (input : Bytes) (block : PEMBlock) (rest : Bytes) (p : PEMPreamble)
    (parser : keyParser) (t : String)
    (hd : lib.pemDecode input = (some block, rest))
    (hc : pemBlockToPEMPreamble block = .ok p)
    (hk : keyParsers lib p = some parser)
    (hp : parser block.bytes = .ok (.other t)) :
    parsePrivateKeyPEM lib input =
      (none, "", some (.algorithmFailed t (.unsupportedKeyType t))) := by
  unfold parsePrivateKeyPEM
  simp only [hd, hc, hk, hp, privateKeyToAlgorithm, GoPrivateKey.typeName]

/-- Witness for C9: an EC envelope whose decode routine returns a value of
an unexpected dynamic type fails with the wrapped unsupported-key-type
error carrying that type's name. -/
theorem parsePrivateKeyPEM_unsupportedKeyType_witness :
    parsePrivateKeyPEM egLib [5] =
      (none, "",
        some (.algorithmFailed "*ecdh.PrivateKey"
          (.unsupportedKeyType "*ecdh.PrivateKey"))) :=
  parsePrivateKeyPEM_unsupportedKeyType egLib [5] ⟨"EC PRIVATE KEY", [], [5]⟩ []
    .PreamblePrivateKeyEC (fun der => egLib.parseECPrivateKey der)
    "*ecdh.PrivateKey" (by decide) rfl rfl rfl

/-- C10: every call returns a well-formed triple — either an error with no
key and the empty-string algorithm, or no error with a key and an
algorithm from {RSA, ECDSA, ED25519} (of which the empty string is not a
member); never a partially populated result. -/
theorem parsePrivateKeyPEM_result_wellFormed (lib : CryptoStdlib) (input : Bytes) :
    resultWellFormed (parsePrivateKeyPEM lib input) = true ∧
      ([RSA, ECDSA, ED25519].contains "") = false := by
  refine ⟨?_, by decide⟩
  unfold parsePrivateKeyPEM
  split
  · rfl
  · split
    · rfl
    · split
      · rfl
      · split
        · rfl
        · next prvKey heqp =>
          split
          · rfl
          · next algorithm heq =>
            cases prvKey <;> simp [privateKeyToAlgorithm] at heq <;>
              subst heq <;> rfl

end Tlsutils
